import Mathlib

/-!
Verification development for the `omics_ingest` ingestion engine
(`omics_ingest/common.py`, `omics_ingest/genomics/illumina.py`).

The Python source is shallowly embedded: strings are `List Char` where
character-level behaviour matters (manifest line parsing, `str.replace`),
timestamps are `Int`, filesystem and remote-store effects are explicit
event traces, and exceptions are `Except`.
-/

/-! ## Manifest line parsing (`_compare_manifests`, common.py lines 54-71)

Each manifest line is processed as:

    if line.startswith("#") or line.startswith("%"): continue
    line = line.strip()
    size, chksum, path = line.split(",")

`startswith` with a one-character pattern is a test on the first character;
`strip()` removes leading and trailing ASCII whitespace; `split(",")` with a
three-element unpacking raises `ValueError` unless the stripped line holds
exactly two commas.
-/

/-- The six ASCII characters removed by Python `str.strip()`. -/
def pyWhitespaceChar (c : Char) : Bool :=
  c = ' ' || c = '\t' || c = '\n' || c = '\r' || c = Char.ofNat 11 || c = Char.ofNat 12

/-- Python `str.strip()`: drop leading and trailing whitespace. -/
def pyStrip (cs : List Char) : List Char :=
  ((cs.dropWhile pyWhitespaceChar).reverse.dropWhile pyWhitespaceChar).reverse

/-- Number of commas in a line (determines the arity of `line.split(",")`). -/
def commaCount : List Char → Nat
  | [] => 0
  | c :: cs => (if c = ',' then 1 else 0) + commaCount cs

/-- Python `str.split(",")` on the character list. -/
def splitComma : List Char → List (List Char)
  | [] => [[]]
  | c :: cs =>
    if c = ',' then [] :: splitComma cs
    else
      match splitComma cs with
      | [] => [[c]]
      | f :: rest => (c :: f) :: rest

/-- Outcome of processing one manifest line: skipped comment, raised
exception (`ValueError` from the 3-way unpacking), or a parsed entry. -/
inductive LineParse
  | skip
  | fail
  | entry (size chksum path : List Char)
deriving DecidableEq

/-- The three-element unpacking `size, chksum, path = line.split(",")`:
anything but exactly three fields raises. -/
def entryOfFields : List (List Char) → LineParse
  | [size, chksum, path] => LineParse.entry size chksum path
  | _ => LineParse.fail

/-- One iteration of the manifest-reading loop (common.py lines 57-61). -/
def parseLineCore (cs : List Char) : LineParse :=
  if cs.head? = some '#' ∨ cs.head? = some '%' then LineParse.skip
  else entryOfFields (splitComma (pyStrip cs))

lemma splitComma_ne_nil (cs : List Char) : splitComma cs ≠ [] := by
  cases cs with
  | nil => simp [splitComma]
  | cons c cs =>
    simp only [splitComma]
    split
    · simp
    · split <;> simp

lemma splitComma_length (cs : List Char) :
    (splitComma cs).length = commaCount cs + 1 := by
  induction cs with
  | nil => rfl
  | cons c cs ih =>
    by_cases hc : c = ','
    · subst hc
      simp [splitComma, commaCount, ih]
      omega
    · simp only [splitComma, commaCount, if_neg hc]
      rcases h : splitComma cs with _ | ⟨f, rest⟩
      · exact absurd h (splitComma_ne_nil cs)
      · rw [h] at ih
        simp at ih
        simp [ih]

lemma pyWhitespaceChar_ne_comma {c : Char} (h : pyWhitespaceChar c = true) :
    ¬ c = ',' := by
  intro hc
  subst hc
  simp [pyWhitespaceChar] at h

lemma commaCount_dropWhile (cs : List Char) :
    commaCount (cs.dropWhile pyWhitespaceChar) = commaCount cs := by
  induction cs with
  | nil => rfl
  | cons c cs ih =>
    by_cases h : pyWhitespaceChar c
    · rw [List.dropWhile_cons_of_pos h, ih]
      simp [commaCount, pyWhitespaceChar_ne_comma h]
    · rw [List.dropWhile_cons_of_neg h]

lemma commaCount_append (a b : List Char) :
    commaCount (a ++ b) = commaCount a + commaCount b := by
  induction a with
  | nil => simp [commaCount]
  | cons c cs ih => simp [commaCount, ih]; omega

lemma commaCount_reverse (cs : List Char) :
    commaCount cs.reverse = commaCount cs := by
  induction cs with
  | nil => rfl
  | cons c cs ih =>
    simp [List.reverse_cons, commaCount_append, ih, commaCount]
    omega

lemma commaCount_pyStrip (cs : List Char) :
    commaCount (pyStrip cs) = commaCount cs := by
  unfold pyStrip
  rw [commaCount_reverse, commaCount_dropWhile, commaCount_reverse,
    commaCount_dropWhile]

lemma pyStrip_eq_nil_of_all_ws {cs : List Char}
    (h : ∀ c ∈ cs, pyWhitespaceChar c = true) : pyStrip cs = [] := by
  unfold pyStrip
  have h1 : cs.dropWhile pyWhitespaceChar = [] := by
    rw [List.dropWhile_eq_nil_iff]
    exact fun c hc => h c hc
  rw [h1]
  simp

lemma entryOfFields_of_length_ne (l : List (List Char)) (h : l.length ≠ 3) :
    entryOfFields l = LineParse.fail := by
  match l with
  | [] => rfl
  | [a] => rfl
  | [a, b] => rfl
  | [a, b, c] => simp at h
  | a :: b :: c :: d :: t => rfl

lemma entryOfFields_ne_skip (l : List (List Char)) :
    entryOfFields l ≠ LineParse.skip := by
  match l with
  | [] => simp [entryOfFields]
  | [a] => simp [entryOfFields]
  | [a, b] => simp [entryOfFields]
  | [a, b, c] => simp [entryOfFields]
  | a :: b :: c :: d :: t => simp [entryOfFields]

/-! ## Manifest maps and `_compare_manifests` (common.py lines 49-103)

Python dict semantics: assigning to an existing key updates the value in
place (insertion order kept); a new key is appended.
-/

/-- A manifest map `path -> (size, chksum)` as an insertion-ordered
association list, mirroring a Python dict keyed by strings. -/
abbrev InfoMap := List (List Char × (List Char × List Char))

/-- `m[k] = v` on a Python dict: update in place or append. -/
def insertInfo (m : InfoMap) (k : List Char) (v : List Char × List Char) :
    InfoMap :=
  if m.any (fun p => decide (p.1 = k)) then
    m.map (fun p => if p.1 = k then (k, v) else p)
  else m ++ [(k, v)]

/-- `m.get(k)` on the association list. -/
def lookupInfo (m : InfoMap) (k : List Char) :
    Option (List Char × List Char) :=
  (m.find? (fun p => decide (p.1 = k))).map (fun p => p.2)

/-- `m.keys()` in insertion order. -/
def keysOf (m : InfoMap) : List (List Char) := m.map (fun p => p.1)

/-- Python `str.replace(old, new)`: replace every occurrence, scanning left
to right.  The fuel argument is the length of the scanned string; every
step consumes at least one character when `old` is nonempty. -/
def pyReplaceFuel : Nat → List Char → List Char → List Char → List Char
  | _, [], _, _ => []
  | 0, s, _, _ => s
  | fuel + 1, c :: cs, old, new =>
    if old.isPrefixOf (c :: cs) then
      new ++ pyReplaceFuel fuel ((c :: cs).drop old.length) old new
    else c :: pyReplaceFuel fuel cs old new

/-- Python `str.replace(old, new)`, including the empty-pattern case where
CPython interleaves `new` around every character. -/
def pyReplace (s old new : List Char) : List Char :=
  if old = [] then new ++ (s.map (fun c => c :: new)).flatten
  else pyReplaceFuel s.length s old new

/-- One manifest-reading loop of `_compare_manifests`: fold the lines into
an accumulator map, applying `norm` to each parsed path (the identity for
the local loop, `path.replace(dest_coll, ".")` for the irods loop); a
malformed line raises. -/
def loadManifest (norm : List Char → List Char) :
    InfoMap → List (List Char) → Except Unit InfoMap
  | m, [] => Except.ok m
  | m, ln :: rest =>
    match parseLineCore ln with
    | LineParse.skip => loadManifest norm m rest
    | LineParse.fail => Except.error ()
    | LineParse.entry size chksum path =>
      loadManifest norm (insertInfo m (norm path) (size, chksum)) rest

/-- The itemized comparison report of `_compare_manifests`
(common.py lines 73-100). -/
structure Report where
  sizeMismatches : List (List Char)
  chksumMismatches : List (List Char)
  extraLocal : List (List Char)
  extraIrods : List (List Char)
deriving DecidableEq

/-- Comparison phase of `_compare_manifests`: mismatches over the shared
keys, then the extra items on either side. -/
def mkReport (infoLocal infoIrods : InfoMap) : Report where
  sizeMismatches :=
    (keysOf infoLocal).filter (fun k =>
      decide (k ∈ keysOf infoIrods) &&
        decide ((lookupInfo infoLocal k).map (fun v => v.1) ≠
          (lookupInfo infoIrods k).map (fun v => v.1)))
  chksumMismatches :=
    (keysOf infoLocal).filter (fun k =>
      decide (k ∈ keysOf infoIrods) &&
        decide ((lookupInfo infoLocal k).map (fun v => v.2) ≠
          (lookupInfo infoIrods k).map (fun v => v.2)))
  extraLocal := (keysOf infoLocal).filter (fun k => decide (k ∉ keysOf infoIrods))
  extraIrods := (keysOf infoIrods).filter (fun k => decide (k ∉ keysOf infoLocal))

/-- The `ok` flag of `_compare_manifests`: true when nothing was reported. -/
def reportOk (r : Report) : Bool :=
  decide (r.sizeMismatches = []) && decide (r.chksumMismatches = []) &&
    decide (r.extraLocal = []) && decide (r.extraIrods = [])

/-- Exceptions escaping `_compare_manifests`: a `ValueError` from line
parsing, or the final `RuntimeError` carrying the logged report. -/
inductive CompareErr
  | parseErr
  | manifestDiff (r : Report)
deriving DecidableEq

/-- `_compare_manifests(path_local, path_irods, dest_coll, logger)`
(common.py lines 49-103), over the line lists of the two files.

Faithful to the source, including the defect on line 71: the loop reading
the irods manifest assigns into `info_local`, so `info_irods` is never
populated and stays the empty dict. -/
def compareManifests (localLines irodsLines : List (List Char))
    (destColl : List Char) : Except CompareErr Unit :=
  match loadManifest (fun p => p) [] localLines with
  | Except.error _ => Except.error CompareErr.parseErr
  | Except.ok infoLocal =>
    match loadManifest (fun p => pyReplace p destColl ['.']) infoLocal
        irodsLines with
    | Except.error _ => Except.error CompareErr.parseErr
    | Except.ok infoLocalBoth =>
      let infoIrods : InfoMap := []
      let r := mkReport infoLocalBoth infoIrods
      if reportOk r then Except.ok () else Except.error (CompareErr.manifestDiff r)

/-- Discriminator for success of `compareManifests`. -/
def exceptIsOk : Except CompareErr Unit → Bool
  | Except.ok _ => true
  | Except.error _ => false

/-! ## Completion gating (`_post_job_run_folder_done`, common.py lines 119-136)

Timestamps are integers.  The source computes

    last_update_age = datetime.datetime.now() - (last_update or datetime.datetime.now())

with two separate clock reads; `now` models the first read and `nowFb` the
second (the fallback used when no `last_update` value is stored), so a
monotonic clock gives `now <= nowFb`.
-/

/-- File name for the local manifest file (common.py line 29). -/
def MANIFEST_LOCAL : String := "_MANIFEST_LOCAL.txt"

/-- File name for the iRODS manifest file (common.py line 31). -/
def MANIFEST_IRODS : String := "_MANIFEST_IRODS.txt"

/-- Maximum of the parsed `last_update` metadata values, via the loop of
common.py lines 121-125 (`None` when no value is stored). -/
def maxLastUpdate (vals : List Int) : Option Int :=
  vals.foldl
    (fun acc v =>
      match acc with
      | none => some v
      | some m => if v > m then some v else some m)
    none

/-- `last_update_age` of common.py line 126. -/
def lastUpdateAge (now nowFb : Int) (vals : List Int) : Int :=
  now - (maxLastUpdate vals).getD nowFb

/-- Which branch of `_post_job_run_folder_done` runs for one folder. -/
inductive GateOutcome
  | notDone
  | finalize
  | atRestWait
deriving DecidableEq

/-- The gating control flow of common.py lines 128-136: return early when
the folder is not marked done; otherwise finalize exactly when the age of
the newest `last_update` strictly exceeds the configured delay. -/
def gateDecision (isDone : Bool) (now nowFb : Int) (vals : List Int)
    (delay : Int) : GateOutcome :=
  if isDone = false then GateOutcome.notDone
  else if lastUpdateAge now nowFb vals > delay then GateOutcome.finalize
  else GateOutcome.atRestWait

/-! ## Local manifest enumeration (common.py lines 142-145)

The file list is produced by

    find . -type f -and -not -path ./_MANIFEST_LOCAL.txt

run inside the run folder: all regular files except the single excluded
path.  The input below is the `./`-relative paths of the regular files
present under the run folder.
-/

/-- Output of the `find` invocation that feeds `hashdeep`. -/
def findEnumeratedFiles (files : List String) : List String :=
  files.filter (fun p => decide (p ≠ "./" ++ MANIFEST_LOCAL))

/-! ## The finalize branch (common.py lines 137-213)

The finalize branch is embedded statement by statement, together with
Python's local-variable semantics, because two statements evaluate
function-local names that are not bound at that point:

* line 139 reads `chck_path`, a name assigned nowhere in the function —
  a `NameError`, raised before the `try` on line 140, so nothing in this
  function catches it;
* line 195 reads `local_manifest_dest` and `irods_manifest_dest`, which
  are first assigned on lines 197 and 201 — an `UnboundLocalError`,
  raised while evaluating the call's arguments, outside any `try`.

Each statement records the function-local names it evaluates, the locals
it binds, its externally visible effects, an uncaught exception it
raises, and whether it returns.  Parameters and module globals always
resolve and are omitted from `reads`.  `CalledProcessError` (checksum
build, iquest queries) and `OSError` (mkdir/rename) are always caught
inside this function, so for fixed outcomes of the external commands the
control flow is a straight line: the two `try/except` blocks appear
pre-resolved per the outcome flags, with their handler statements
inline.
-/

/-- Externally visible effects of the finalize branch (local filesystem
and process effects, remote-store writes). -/
inductive FinEv
  | runFind
  | runHashdeep
  | removeLocalManifestFile
  | runIquestDirect
  | runIquestSub
  | removeIrodsManifestFile
  | putLocalManifest
  | ichksumLocal
  | putIrodsManifest
  | ichksumIrods
  | mkdirIngestedParent
  | renameAttempt
  | logRenameError
  | setStatusComplete
deriving DecidableEq

/-- Exceptions that can escape `_post_job_run_folder_done`: an unbound
local name (`NameError` / `UnboundLocalError`), or the `RuntimeError`
raised by `_compare_manifests` on line 103.  The caught exception classes
(`CalledProcessError`, `OSError`) never escape and need no constructor. -/
inductive PyExc
  | nameErr (x : String)
  | runtimeErr
deriving DecidableEq

/-- One embedded Python statement of the finalize branch. -/
structure FStmt where
  line : Nat
  reads : List String
  binds : List String
  effects : List FinEv
  raises : Option PyExc
  returns : Bool
deriving DecidableEq

/-- Execution result of a statement sequence: fell off the end, executed
a `return`, or an uncaught exception escaped. -/
inductive ExecResult
  | finished
  | returned
  | raised (e : PyExc)
deriving DecidableEq

/-- Run a statement sequence under Python local-name semantics: each
statement first resolves the locals it reads against the names bound so
far (the first unresolved name raises and nothing later runs — Python
evaluates call arguments left to right), then performs its effects, then
raises, returns, or binds its targets and continues. -/
def runStmts (env : List String) : List FStmt → List FinEv × ExecResult
  | [] => ([], ExecResult.finished)
  | st :: rest =>
    match st.reads.find? (fun x => decide (x ∉ env)) with
    | some x => ([], ExecResult.raised (PyExc.nameErr x))
    | none =>
      match st.raises with
      | some e => (st.effects, ExecResult.raised e)
      | none =>
        if st.returns then (st.effects, ExecResult.returned)
        else
          let r := runStmts (st.binds ++ env) rest
          (st.effects ++ r.1, r.2)

/-- The statement sequence of the finalize branch, line by line from
common.py 137-213, for fixed outcomes of the external commands:
`checksumOk` — the hashdeep run of line 146 (`false` models its
`CalledProcessError`, handled on lines 159-162 by log, remove, return);
`queryOk` — the iquest runs (`false` models the first one failing, with
the handler of lines 190-193); `compareOk` — whether
`_compare_manifests`, if its arguments resolved, would raise its
`RuntimeError`; `renameOk` — the rename of line 209 (`false` models its
`OSError`, whose handler on lines 210-211 only logs, after which line
213 still runs). -/
def finalizeBranchStmts (checksumOk queryOk compareOk renameOk : Bool) :
    List FStmt :=
  [⟨138, ["src_folder"], ["local_path"], [], none, false⟩,
   ⟨139, ["chck_path"], [], [], none, false⟩] ++
  (if checksumOk then
    [⟨141, ["local_path"], ["chk_f"], [], none, false⟩,
     ⟨142, [], ["p_find"], [FinEv.runFind], none, false⟩,
     ⟨146, ["p_find", "chk_f"], [], [FinEv.runHashdeep], none, false⟩,
     ⟨155, ["p_find"], [], [], none, false⟩]
   else
    [⟨141, ["local_path"], ["chk_f"], [], none, false⟩,
     ⟨142, [], ["p_find"], [FinEv.runFind], none, false⟩,
     ⟨146, ["p_find", "chk_f"], [], [FinEv.runHashdeep], none, false⟩,
     ⟨159, [], ["e"], [], none, false⟩,
     ⟨160, ["e"], [], [], none, false⟩,
     ⟨161, ["local_path"], [], [FinEv.removeLocalManifestFile], none, true⟩]) ++
  [⟨164, [], [], [], none, false⟩,
   ⟨165, ["src_folder"], ["irods_path"], [], none, false⟩] ++
  (if queryOk then
    [⟨167, ["irods_path"], ["chk_f"], [], none, false⟩,
     ⟨169, [], ["cmd"], [], none, false⟩,
     ⟨178, ["cmd", "chk_f"], [], [FinEv.runIquestDirect], none, false⟩,
     ⟨180, [], ["cmd_sub"], [], none, false⟩,
     ⟨189, ["cmd_sub", "chk_f"], [], [FinEv.runIquestSub], none, false⟩]
   else
    [⟨167, ["irods_path"], ["chk_f"], [], none, false⟩,
     ⟨169, [], ["cmd"], [], none, false⟩,
     ⟨178, ["cmd", "chk_f"], [], [FinEv.runIquestDirect], none, false⟩,
     ⟨190, [], ["e"], [], none, false⟩,
     ⟨191, ["e"], [], [], none, false⟩,
     ⟨192, ["irods_path"], [], [FinEv.removeIrodsManifestFile], none, true⟩]) ++
  [⟨195, ["local_manifest_dest", "irods_manifest_dest"], [], [],
     if compareOk then none else some PyExc.runtimeErr, false⟩,
   ⟨197, [], ["local_manifest_dest"], [], none, false⟩,
   ⟨198, ["local_path", "local_manifest_dest"], [], [FinEv.putLocalManifest],
     none, false⟩,
   ⟨199, ["local_manifest_dest"], [], [FinEv.ichksumLocal], none, false⟩,
   ⟨201, [], ["irods_manifest_dest"], [], none, false⟩,
   ⟨202, ["irods_path", "irods_manifest_dest"], [], [FinEv.putIrodsManifest],
     none, false⟩,
   ⟨203, ["irods_manifest_dest"], [], [FinEv.ichksumIrods], none, false⟩,
   ⟨205, ["src_folder"], ["new_src_folder"], [], none, false⟩,
   ⟨206, ["src_folder", "new_src_folder"], [], [], none, false⟩] ++
  (if renameOk then
    [⟨208, ["new_src_folder"], [], [FinEv.mkdirIngestedParent], none, false⟩,
     ⟨209, ["src_folder", "new_src_folder"], [], [FinEv.renameAttempt],
       none, false⟩]
   else
    [⟨208, ["new_src_folder"], [], [FinEv.mkdirIngestedParent], none, false⟩,
     ⟨209, ["src_folder", "new_src_folder"], [], [FinEv.renameAttempt],
       none, false⟩,
     ⟨210, [], ["e"], [], none, false⟩,
     ⟨211, ["e"], [], [FinEv.logRenameError], none, false⟩]) ++
  [⟨213, [], [], [FinEv.setStatusComplete], none, false⟩]

/-- Function locals of `_post_job_run_folder_done` already bound when the
finalize branch begins: the parameter rebound on line 119 and the values
computed on lines 121-126. -/
def finalizeInitEnv : List String :=
  ["src_folder", "last_update", "last_update_age"]

/-- Effects and outcome of one entry into the finalize branch. -/
def finalizeBranchRun (checksumOk queryOk compareOk renameOk : Bool) :
    List FinEv × ExecResult :=
  runStmts finalizeInitEnv
    (finalizeBranchStmts checksumOk queryOk compareOk renameOk)

/-! ## Per-pass folder loop (`post_job`, common.py lines 238-261)

`post_job` iterates over the run folders in sorted order and calls
`_post_job_run_folder_done` (line 252) with no surrounding `try/except`,
so any exception escaping the helper ends the loop and the pass.
-/

/-- Configuration of one tracked run folder for a `post_job` pass. -/
structure FolderCfg where
  name : String
  hasCollection : Bool
  isDone : Bool
  vals : List Int
  checksumOk : Bool
  queryOk : Bool
  compareOk : Bool
  renameOk : Bool
deriving DecidableEq

/-- `_post_job_run_folder_done` for one folder: the gate of lines
119-136 returns normally (not marked done, or not yet at rest) or enters
the finalize branch. -/
def folderRun (now nowFb delay : Int) (f : FolderCfg) :
    List FinEv × ExecResult :=
  match gateDecision f.isDone now nowFb f.vals delay with
  | GateOutcome.notDone => ([], ExecResult.returned)
  | GateOutcome.atRestWait => ([], ExecResult.finished)
  | GateOutcome.finalize =>
    finalizeBranchRun f.checksumOk f.queryOk f.compareOk f.renameOk

/-- Whether an execution result is an escaping exception. -/
def isRaised : ExecResult → Bool
  | ExecResult.raised _ => true
  | _ => false

/-- The folders whose loop iteration a `post_job` pass reaches, in
order: an exception escaping the uncaught helper call on line 252 ends
the loop; a folder with no matching destination collection is only
logged (line 261) and iteration continues. -/
def postJobReached (now nowFb delay : Int) :
    List FolderCfg → List String
  | [] => []
  | f :: rest =>
    if f.hasCollection then
      if isRaised (folderRun now nowFb delay f).2 then [f.name]
      else f.name :: postJobReached now nowFb delay rest
    else f.name :: postJobReached now nowFb delay rest

/-! ## Relocation path (`to_ingested_path`, common.py lines 42-46 and
illumina.py lines 38-42; the two definitions are textually identical)

A filesystem path is its list of components; `Path.parent` is `dropLast`
and `Path.name` is the last component.
-/

/-- `to_ingested_path`: `orig.parent.parent / (orig.parent.name + "-INGESTED") / orig.name`. -/
def toIngestedPath (p : List String) : List String :=
  (p.dropLast.dropLast ++ [(p.dropLast.getLastD "") ++ "-INGESTED"]) ++
    [p.getLastD ""]

/-! ## Claim theorems -/

/-- C3: for every run folder, the finalize branch (manifest building and
reconciliation, common.py lines 132-213) is entered if and only if the
injected `is_folder_done` predicate holds and the age of the newest stored
`last_update` strictly exceeds the configured delay; a false predicate
defers unconditionally.  In particular, with the marker present and a
15-minute delay, a 10-minute-old `last_update` defers and a 20-minute-old
one proceeds. -/
theorem gateDecision_spec :
    (∀ (d : Bool) (now nowFb delay : Int) (vals : List Int),
      (gateDecision d now nowFb vals delay = GateOutcome.finalize ↔
        d = true ∧ lastUpdateAge now nowFb vals > delay) ∧
      (d = false → gateDecision d now nowFb vals delay = GateOutcome.notDone)) ∧
    gateDecision true 20 20 [10] 15 = GateOutcome.atRestWait ∧
    gateDecision true 25 25 [5] 15 = GateOutcome.finalize := by
  refine ⟨?_, by decide, by decide⟩
  intro d now nowFb delay vals
  cases d with
  | false => simp [gateDecision]
  | true =>
    have hg : gateDecision true now nowFb vals delay =
        if lastUpdateAge now nowFb vals > delay then GateOutcome.finalize
        else GateOutcome.atRestWait := by
      unfold gateDecision
      rw [if_neg]
      simp
    refine ⟨?_, by simp⟩
    rw [hg]
    by_cases hage : lastUpdateAge now nowFb vals > delay
    · rw [if_pos hage]
      simp [hage]
    · rw [if_neg hage]
      simp [hage]

/-- C3 witness: a folder not marked done is deferred at a concrete input. -/
theorem gateDecision_spec_witness :
    gateDecision false 100 100 [40] 15 = GateOutcome.notDone :=
  (gateDecision_spec.1 false 100 100 15 [40]).2 rfl

/-- C4: when no `last_update` value is stored, the age evaluates to zero
(with a single clock instant) and the finalize branch is never taken for
any non-negative delay; under a monotonic clock (`now ≤ nowFb`, the
fallback `now()` being read second) the age is never positive, so the
folder is never finalized on that pass. -/
theorem gateDecision_emptyHistory :
    (∀ now : Int, lastUpdateAge now now [] = 0) ∧
    (∀ (d : Bool) (now nowFb delay : Int), now ≤ nowFb → 0 ≤ delay →
      gateDecision d now nowFb [] delay ≠ GateOutcome.finalize) := by
  constructor
  · intro now
    simp [lastUpdateAge, maxLastUpdate]
  · intro d now nowFb delay h1 h2
    cases d with
    | false => simp [gateDecision]
    | true =>
      have hage : lastUpdateAge now nowFb [] = now - nowFb := rfl
      have hnot : ¬ lastUpdateAge now nowFb [] > delay := by
        rw [hage]
        omega
      unfold gateDecision
      rw [if_neg (by simp : ¬ (true = false)), if_neg hnot]
      simp

/-- C4 witness: empty history, zero delay, marker present: no finalize. -/
theorem gateDecision_emptyHistory_witness :
    gateDecision true 7 9 [] 0 ≠ GateOutcome.finalize :=
  gateDecision_emptyHistory.2 true 7 9 0 (by decide) (by decide)

/-- C5: the claim fails on the code.  The `find` invocation feeding the
local manifest (common.py line 143) excludes only
`./_MANIFEST_LOCAL.txt`; a regular file named `_MANIFEST_IRODS.txt`
(left behind by an earlier failed pass, since `_compare_manifests` raises
without removing it) is enumerated and would appear in the local
manifest, while the claim and the spec say both manifest files are
excluded.  The iRODS-side query (lines 173-176) does exclude both names,
so the asymmetry is a slip in the code. -/
theorem findEnumeratedFiles_keeps_irods_manifest :
    ("./" ++ MANIFEST_IRODS) ∈
      findEnumeratedFiles
        ["./Data/run.bin", "./" ++ MANIFEST_IRODS, "./" ++ MANIFEST_LOCAL] ∧
    ("./" ++ MANIFEST_LOCAL) ∉
      findEnumeratedFiles
        ["./Data/run.bin", "./" ++ MANIFEST_IRODS, "./" ++ MANIFEST_LOCAL] := by
  constructor
  · decide
  · decide

/-- C7: the claim fails on the code: no finalize execution ever attempts
the rename (the `NameError` of line 139 precedes the `try` of line 207),
so the rename-failure handling the claim describes is unreachable dead
code.  Moreover the statements from line 197 onward, run in isolation
past the two undefined-name crashes, show that after a failed rename the
`OSError` handler only logs and the `status = complete`
collection-metadata write of line 213 — outside the `try/except` — still
runs: a remote write after the failed rename, so remote state would not
be left untouched even if the path were reachable. -/
theorem finalizeBranch_rename_failure_unreachable :
    (∀ a b c d : Bool,
      FinEv.renameAttempt ∉ (finalizeBranchRun a b c d).1) ∧
    runStmts ("local_path" :: "irods_path" :: finalizeInitEnv)
        ((finalizeBranchStmts true true true false).filter
          (fun st => decide (197 ≤ st.line))) =
      ([FinEv.putLocalManifest, FinEv.ichksumLocal, FinEv.putIrodsManifest,
        FinEv.ichksumIrods, FinEv.mkdirIngestedParent, FinEv.renameAttempt,
        FinEv.logRenameError, FinEv.setStatusComplete],
       ExecResult.finished) := by
  decide

/-- C7 witness: no rename attempt at concrete external outcomes. -/
theorem finalizeBranch_rename_failure_unreachable_witness :
    FinEv.renameAttempt ∉ (finalizeBranchRun true true true false).1 :=
  finalizeBranch_rename_failure_unreachable.1 true true true false

/-- C8: the claim fails on the code.  The three failure kinds the claim
names cannot occur: the `NameError` of line 139 precedes the checksum
build, so the checksum and query handlers are dead code, and
`_compare_manifests` is never called because line 195 raises
`UnboundLocalError` first, so its line-103 `RuntimeError` cannot escape.
The failure every gate-passing folder does produce — that `NameError` —
escapes the uncaught helper call in `post_job` (line 252) and ends the
pass: the second tracked folder is never reached. -/
theorem postJob_pass_aborted_by_first_folder :
    postJobReached 100 100 15
        [⟨"RunA", true, true, [0], true, true, true, true⟩,
         ⟨"RunB", true, true, [0], true, true, true, true⟩] = ["RunA"] ∧
    (folderRun 100 100 15
        ⟨"RunA", true, true, [0], true, true, true, true⟩).2 =
      ExecResult.raised (PyExc.nameErr "chck_path") := by
  decide

/-- C9: the relocation target of a run folder is its grandparent
directory, then the parent directory's name suffixed with `-INGESTED`,
then the run folder's original name (common.py lines 42-46 and the
identical illumina.py lines 38-42). -/
theorem toIngestedPath_spec (base : List String) (par nm : String) :
    toIngestedPath (base ++ [par, nm]) = base ++ [par ++ "-INGESTED", nm] := by
  have h : base ++ [par, nm] = (base ++ [par]) ++ [nm] := by simp
  rw [h]
  unfold toIngestedPath
  rw [List.dropLast_concat, List.getLastD_concat, List.dropLast_concat,
    List.getLastD_concat]
  simp

/-- C9 witness: `/data/RunsA/Run123` relocates to
`/data/RunsA-INGESTED/Run123`. -/
theorem toIngestedPath_spec_witness :
    toIngestedPath ["/", "data", "RunsA", "Run123"] =
      ["/", "data", "RunsA-INGESTED", "Run123"] :=
  toIngestedPath_spec ["/", "data"] "RunsA" "Run123"

lemma parseLineCore_of_not_comment {cs : List Char}
    (h : ¬ (cs.head? = some '#' ∨ cs.head? = some '%')) :
    parseLineCore cs = entryOfFields (splitComma (pyStrip cs)) := by
  unfold parseLineCore
  rw [if_neg h]

/-- C10: manifest parsing is not total over line contents.  Any blank
(empty or whitespace-only) line fails the three-way unpacking and raises;
any non-comment line whose comma count differs from two raises; and
exactly the lines whose first character is `#` or `%` are skipped. -/
theorem parseLineCore_totality :
    (∀ cs : List Char, (∀ c ∈ cs, pyWhitespaceChar c = true) →
      parseLineCore cs = LineParse.fail) ∧
    (∀ cs : List Char, cs.head? ≠ some '#' → cs.head? ≠ some '%' →
      commaCount cs ≠ 2 → parseLineCore cs = LineParse.fail) ∧
    (∀ cs : List Char, parseLineCore cs = LineParse.skip ↔
      (cs.head? = some '#' ∨ cs.head? = some '%')) := by
  refine ⟨?_, ?_, ?_⟩
  · intro cs hws
    have hh : ¬ (cs.head? = some '#' ∨ cs.head? = some '%') := by
      rintro (hh | hh) <;>
      · cases cs with
        | nil => simp at hh
        | cons c cs' =>
          simp at hh
          subst hh
          have hc := hws _ (List.mem_cons_self _ _)
          exact absurd hc (by decide)
    rw [parseLineCore_of_not_comment hh, pyStrip_eq_nil_of_all_ws hws]
    rfl
  · intro cs h1 h2 h3
    have hh : ¬ (cs.head? = some '#' ∨ cs.head? = some '%') := by
      rintro (hh | hh)
      · exact h1 hh
      · exact h2 hh
    rw [parseLineCore_of_not_comment hh]
    apply entryOfFields_of_length_ne
    rw [splitComma_length, commaCount_pyStrip]
    omega
  · intro cs
    by_cases hh : cs.head? = some '#' ∨ cs.head? = some '%'
    · constructor
      · intro _
        exact hh
      · intro _
        unfold parseLineCore
        rw [if_pos hh]
    · rw [parseLineCore_of_not_comment hh]
      constructor
      · intro hskip
        exact absurd hskip (entryOfFields_ne_skip _)
      · intro hcontra
        exact absurd hcontra hh

/-- C10 witness: a whitespace-only line raises, at a concrete input. -/
theorem parseLineCore_totality_witness :
    parseLineCore [' ', '\t'] = LineParse.fail :=
  parseLineCore_totality.1 [' ', '\t'] (by decide)

/-! ## Concrete reconciliation runs (claims C1 and C2)

The spec's disjoint-keys example: local `{a:(10,"x"), b:(5,"y")}` versus
remote (post-strip) `{a:(10,"x"), c:(5,"y")}`, with a destination
collection name `D` that occurs in no path, so the `replace` is the
identity on these keys.
-/

/-- Local manifest lines of the disjoint-keys example. -/
def c1LocalLines : List (List Char) := ["10,x,a".data, "5,y,b".data]

/-- iRODS manifest lines of the disjoint-keys example. -/
def c1IrodsLines : List (List Char) := ["10,x,a".data, "5,y,c".data]

/-- C1: the claim fails on the code.  Because common.py line 71 assigns
the irods entries into `info_local`, `info_irods` stays empty: on the
spec's own example the run reports `extra_local = {a, b, c}` and
`extra_remote = {}` instead of `extra_local = {b}`, `extra_remote = {c}`,
and even two identical manifests fail reconciliation, so success is not
equivalent to equal key sets with equal values. -/
theorem compareManifests_disjoint_run :
    compareManifests c1LocalLines c1IrodsLines "D".data =
      Except.error (CompareErr.manifestDiff
        ⟨[], [], ["a".data, "b".data, "c".data], []⟩) ∧
    exceptIsOk (compareManifests c1LocalLines c1LocalLines "D".data) = false := by
  constructor
  · rfl
  · rfl

/-- C2: the claim fails on the code.  On local `{a:(10,"x")}` versus
remote `{a:(11,"x")}` the run must cite a size mismatch for `a`, but the
irods entry overwrites the local one inside `info_local`
(common.py line 71) and `info_irods` is empty, so the shared key set is
empty: no size or checksum mismatch is recorded and the failure instead
reports `extra_local = {a}`. -/
theorem compareManifests_sizeMismatch_run :
    compareManifests ["10,x,a".data] ["11,x,a".data] "D".data =
      Except.error (CompareErr.manifestDiff ⟨[], [], ["a".data], []⟩) := by
  rfl
